import Mathlib

/-!
Shallow embedding of the validation and data-access core of the
e-commerce back-office application (`db.py`, `app.py`).

Python strings are modelled as Lean `String` (Python `len` counts code
points, as does `String.length`); `str.strip()` and the regex classes
`\s`/`\d` are modelled over their ASCII content.  Monetary values parsed
by Python's `float` are modelled as rationals (`ℚ`), quantities parsed
by `int` as integers, timestamps/dates as natural numbers.  The relational
store is an explicit record of tables; a transaction either commits (the
new state replaces the old) or rolls back (the old state is returned
unchanged).  Connection availability is an explicit boolean parameter:
`get_db_connection` returning `None` corresponds to `conn = false`.
-/

namespace ECom

/-- Python's `str.strip()` / regex `\s` whitespace, ASCII part. -/
def isPySpace (c : Char) : Bool :=
  c = ' ' || c = '\t' || c = '\n' || c = '\r' || c = '\x0b' || c = '\x0c'

/-- `str.strip()` on a list of characters: drop whitespace at both ends. -/
def pyStripList (l : List Char) : List Char :=
  ((l.dropWhile isPySpace).reverse.dropWhile isPySpace).reverse

/-- `str.strip()`. -/
def pyStrip (s : String) : String :=
  ⟨pyStripList s.data⟩

/-- Result of Python `float(x)`: a (finite) numeric value, or `ValueError`. -/
inductive FloatParse where
  | num (q : ℚ)
  | err
deriving DecidableEq

/-- Result of Python `int(x)`: an integer, or `ValueError`. -/
inductive IntParse where
  | num (n : ℤ)
  | err
deriving DecidableEq

/-- `DataValidator.validate_amount` (db.py:88-99). -/
def validate_amount : FloatParse → Bool × String
  | .err => (false, "Invalid amount format")
  | .num q =>
    if q < 0 then (false, "Amount cannot be negative")
    else if q > 999999.99 then (false, "Amount exceeds maximum limit")
    else (true, "Valid")

/-- `DataValidator.validate_quantity` (db.py:101-112). -/
def validate_quantity : IntParse → Bool × String
  | .err => (false, "Quantity must be a number")
  | .num n =>
    if n ≤ 0 then (false, "Quantity must be greater than 0")
    else if n > 1000 then (false, "Quantity cannot exceed 1000")
    else (true, "Valid")

/-- Character class of the name regex `^[ក-៿a-zA-Z\s\-\']+$`
(db.py:72): Khmer block, Latin letters, whitespace, hyphen, apostrophe. -/
def isNameChar (c : Char) : Bool :=
  (0x1780 ≤ c.toNat && c.toNat ≤ 0x17FF) || c.isAlpha || isPySpace c ||
    c = '-' || c = '\''

/-- `DataValidator.validate_name` (db.py:64-74).  Note that the 50-character
upper bound is checked on the *untrimmed* string (`len(name) > 50`). -/
def validate_name (name : String) (field_name : String) : Bool × String :=
  if name = "" || (pyStrip name).length < 2 then
    (false, field_name ++ " must be at least 2 characters")
  else if name.length > 50 then
    (false, field_name ++ " cannot exceed 50 characters")
  else if name.data ≠ [] && name.data.all isNameChar then (true, "Valid")
  else
    (false, field_name ++
      " can only contain letters (Khmer or English), spaces, hyphens, and apostrophes")

/-- `DataValidator.validate_postal_code` (db.py:76-86).  Note that the
6-character upper bound is checked on the *untrimmed* string
(`len(postal_code) > 6`), while the other checks use the trimmed string. -/
def validate_postal_code (postal_code : String) : Bool × String :=
  if postal_code = "" || (pyStrip postal_code).length < 5 then
    (false, "Postal code must be at least 5 characters")
  else if postal_code.length > 6 then
    (false, "Postal code cannot exceed 6 characters")
  else if (pyStrip postal_code).data.all Char.isDigit &&
      5 ≤ (pyStrip postal_code).length && (pyStrip postal_code).length ≤ 6 then
    (true, "Valid")
  else (false, "Postal code must be 5-6 digits")

/-- Character class `[a-zA-Z0-9._%+-]` of the email local part (db.py:31). -/
def isEmailLocalChar (c : Char) : Bool :=
  c.isAlpha || c.isDigit || c = '.' || c = '_' || c = '%' || c = '+' || c = '-'

/-- Character class `[a-zA-Z0-9.-]` of the email domain part (db.py:31). -/
def isEmailDomainChar (c : Char) : Bool :=
  c.isAlpha || c.isDigit || c = '.' || c = '-'

/-- Split a character list at the first occurrence of `sep`; `none` when
`sep` does not occur. -/
def splitAtChar (sep : Char) : List Char → Option (List Char × List Char)
  | [] => none
  | c :: rest =>
    if c = sep then some ([], rest)
    else match splitAtChar sep rest with
      | none => none
      | some (a, b) => some (c :: a, b)

/-- Whether a string matches the email regex
`^[a-zA-Z0-9._%+-]+@[a-zA-Z0-9.-]+\.[a-zA-Z]{2,}$` (db.py:31): one `@`,
a nonempty local part, and a domain ending in a dot followed by at least
two letters. -/
def emailMatches (l : List Char) : Bool :=
  match splitAtChar '@' l with
  | none => false
  | some (loc, dom) =>
    match splitAtChar '@' dom with
    | some _ => false
    | none =>
      decide (loc ≠ []) && loc.all isEmailLocalChar &&
      (let tld := (dom.reverse.takeWhile (fun c => c ≠ '.')).reverse
       let stem := dom.take (dom.length - tld.length - 1)
       decide (tld.length < dom.length) && decide (2 ≤ tld.length) &&
         tld.all Char.isAlpha && decide (stem ≠ []) &&
         stem.all isEmailDomainChar)

/-- `DataValidator.validate_email` (db.py:28-34). -/
def validate_email (email : String) : Bool × String :=
  if emailMatches email.data then (true, "Valid")
  else (false, "Invalid email format")

/-- The phone prefix class `(1[0-9]|6[1-9]|7[0-9]|8[1-9]|9[0-9])`
(db.py:51-57). -/
def phonePrefixOk (a b : Char) : Bool :=
  b.isDigit &&
    (a = '1' || (a = '6' && b ≠ '0') || a = '7' || (a = '8' && b ≠ '0') ||
      a = '9')

/-- The trailing `\d{6,7}` of the phone patterns. -/
def phoneTailOk (l : List Char) : Bool :=
  l.all Char.isDigit && (l.length = 6 || l.length = 7)

/-- Pattern 1 `^0(..)\d{6,7}$` on the cleaned phone string. -/
def phonePat1 : List Char → Bool
  | '0' :: a :: b :: rest => phonePrefixOk a b && phoneTailOk rest
  | _ => false

/-- Pattern 2 `^\+855(..)\d{6,7}$` on the cleaned phone string. -/
def phonePat2 : List Char → Bool
  | '+' :: '8' :: '5' :: '5' :: a :: b :: rest =>
    phonePrefixOk a b && phoneTailOk rest
  | _ => false

/-- Pattern 3 `^855(..)\d{6,7}$` on the cleaned phone string. -/
def phonePat3 : List Char → Bool
  | '8' :: '5' :: '5' :: a :: b :: rest => phonePrefixOk a b && phoneTailOk rest
  | _ => false

/-- `DataValidator.validate_phone` (db.py:36-62): strip `[\s\-()]`, then
try the three regional patterns. -/
def validate_phone (phone : String) : Bool × String :=
  let cleaned := phone.data.filter
    (fun c => !(isPySpace c || c = '-' || c = '(' || c = ')'))
  if phonePat1 cleaned || phonePat2 cleaned || phonePat3 cleaned then
    (true, "Valid")
  else
    (false, "Invalid Cambodian phone number. Format: 0XX XXX XXX or +855 XX XXX XXX")

/-- A row of the `customers` table. -/
structure CustomerRow where
  customer_id : ℕ
  first_name : String
  last_name : String
  email : String
  phone : String
  address : String
  city : String
  postal_code : String
  created_at : ℕ
deriving DecidableEq, Repr

/-- A row of the `orders` table.  `order_date` defaults to the server
clock and `order_status` to `Pending` on insert. -/
structure OrderRow where
  order_id : ℕ
  customer_id : ℕ
  payment_method_id : ℕ
  channel_id : ℕ
  total_amount : ℚ
  shipping_address : String
  order_date : ℕ
  order_status : String
  ship_date : Option ℕ
deriving DecidableEq, Repr

/-- A row of the `order_items` table. -/
structure OrderItemRow where
  order_id : ℕ
  product_name : String
  quantity : ℤ
  unit_price : ℚ
  subtotal : ℚ
deriving DecidableEq, Repr

/-- A row of the `payment_methods` table. -/
structure PaymentMethodRow where
  payment_method_id : ℕ
  method_name : String
  is_active : Bool
deriving DecidableEq, Repr

/-- A row of the `channels` table. -/
structure ChannelRow where
  channel_id : ℕ
  channel_name : String
  description : String
deriving DecidableEq, Repr

/-- A row of the `product_categories` table. -/
structure CategoryRow where
  category_id : ℕ
  category_name : String
  description : String
  is_active : Bool
deriving DecidableEq, Repr

/-- A row of the `products` table. -/
structure ProductRow where
  product_id : ℕ
  category_id : ℕ
  product_name : String
  description : String
  unit_price : ℚ
  stock_quantity : ℕ
  is_active : Bool
deriving DecidableEq, Repr

/-- The persisted state of the relational store, plus the id sequences
and the server clock. -/
structure DBState where
  customers : List CustomerRow
  orders : List OrderRow
  order_items : List OrderItemRow
  payment_methods : List PaymentMethodRow
  channels : List ChannelRow
  product_categories : List CategoryRow
  products : List ProductRow
  nextCustomerId : ℕ
  nextOrderId : ℕ
  now : ℕ
deriving DecidableEq, Repr

/-- A store with no rows. -/
def emptyDB : DBState :=
  ⟨[], [], [], [], [], [], [], 1, 1, 0⟩

/-- Insert `x` into `l` before the first element whose key is smaller,
keeping keys in descending order (`ORDER BY key DESC`). -/
def insDescBy (key : α → ℕ) (x : α) : List α → List α
  | [] => [x]
  | y :: ys => if key y < key x then x :: y :: ys else y :: insDescBy key x ys

/-- Sort by a numeric key in descending order (insertion sort). -/
def sortDescBy (key : α → ℕ) (l : List α) : List α :=
  l.foldl (fun acc y => insDescBy key y acc) []

/-- Insert `x` into `l` before the first element whose key is larger,
keeping string keys in ascending order (`ORDER BY key`). -/
def insAscStrBy (key : α → String) (x : α) : List α → List α
  | [] => [x]
  | y :: ys => if key x < key y then x :: y :: ys else y :: insAscStrBy key x ys

/-- Sort by a string key in ascending order (insertion sort). -/
def sortAscStrBy (key : α → String) (l : List α) : List α :=
  l.foldl (fun acc y => insAscStrBy key y acc) []

/-- Whether `needle` occurs as a contiguous substring of `hay`
(Python's `in` on strings). -/
def strContains (needle : List Char) : List Char → Bool
  | [] => needle.isPrefixOf ([] : List Char)
  | c :: t => needle.isPrefixOf (c :: t) || strContains needle t

/-- The PostgreSQL message of the `IntegrityError` raised when the unique
index on `customers.email` is violated; its text contains `email`, which
is what `add_customer`'s handler checks (`'email' in str(e)`). -/
def pgDuplicateEmailMsg : String :=
  "duplicate key value violates unique constraint \"customers_email_key\""

/-- `ECommerceDB.add_customer` (db.py:272-313).  Runs the five field
validators in order and returns the first rejection; otherwise needs a
connection; a duplicate email raises `IntegrityError` at the storage
layer, which is rolled back and mapped to the duplicate-email message.
On success the row is committed and the generated id returned. -/
def add_customer (conn : Bool) (s : DBState)
    (first_name last_name email phone address city postal_code : String) :
    (Bool × String) × DBState :=
  let validations := [
    validate_name first_name "First name",
    validate_name last_name "Last name",
    validate_email email,
    validate_phone phone,
    validate_postal_code postal_code]
  match validations.find? (fun v => !v.fst) with
  | some v => ((false, v.snd), s)
  | none =>
    if !conn then ((false, "Database connection failed"), s)
    else if s.customers.any (fun c => c.email = email) then
      if strContains "email".data pgDuplicateEmailMsg.data then
        ((false, "Email already exists in the system"), s)
      else ((false, "Database integrity error"), s)
    else
      let cid := s.nextCustomerId
      ((true, "Customer added successfully! ID: " ++ toString cid),
       { s with
         customers := s.customers ++ [{
           customer_id := cid, first_name := first_name,
           last_name := last_name, email := email, phone := phone,
           address := address, city := city, postal_code := postal_code,
           created_at := s.now }],
         nextCustomerId := cid + 1 })

/-- One line item passed to `create_order` (`st.session_state.order_items`
entries: product name, integer quantity, numeric unit price). -/
structure ItemInput where
  product_name : String
  quantity : ℤ
  unit_price : ℚ
deriving DecidableEq, Repr

/-- The `order_items` row inserted for one item: the subtotal is computed
as `item['quantity'] * item['unit_price']` at insert time (db.py:357). -/
def mkItemRow (oid : ℕ) (it : ItemInput) : OrderItemRow :=
  { order_id := oid, product_name := it.product_name,
    quantity := it.quantity, unit_price := it.unit_price,
    subtotal := (it.quantity : ℚ) * it.unit_price }

/-- The item-insert loop of `create_order` (db.py:343-359): validate each
item's quantity then unit price (a rejection raises `ValueError` with the
validator's message), then execute the insert, which the storage layer may
fail with an error message (`itemErr i`).  The first failure aborts the
loop with its message. -/
def insertItems (oid : ℕ) (itemErr : ℕ → Option String) :
    ℕ → List ItemInput → Except String (List OrderItemRow)
  | _, [] => .ok []
  | i, it :: rest =>
    match validate_quantity (.num it.quantity) with
    | (false, msg) => .error msg
    | (true, _) =>
      match validate_amount (.num it.unit_price) with
      | (false, msg) => .error msg
      | (true, _) =>
        match itemErr i with
        | some e => .error e
        | none =>
          match insertItems oid itemErr (i + 1) rest with
          | .error e => .error e
          | .ok rows => .ok (mkItemRow oid it :: rows)

/-- `ECommerceDB.create_order` (db.py:315-368).  Validates the order-level
amount, needs a connection, inserts the header (obtaining the generated
id), runs the item loop, and commits; any exception in the loop rolls the
whole transaction back (header included) and returns
`"Error creating order: " ++ str(e)`.  The persisted state changes only on
commit; on rollback the original state is returned unchanged. -/
def create_order (conn : Bool) (itemErr : ℕ → Option String) (s : DBState)
    (customer_id payment_method_id channel_id : ℕ) (total_amount : ℚ)
    (shipping_address : String) (items : List ItemInput) :
    (Bool × String) × DBState :=
  match validate_amount (.num total_amount) with
  | (false, msg) => ((false, msg), s)
  | (true, _) =>
    if !conn then ((false, "Database connection failed"), s)
    else
      let oid := s.nextOrderId
      match insertItems oid itemErr 0 items with
      | .error e => ((false, "Error creating order: " ++ e), s)
      | .ok rows =>
        ((true, "Order created successfully! Order ID: " ++ toString oid),
         { s with
           orders := s.orders ++ [{
             order_id := oid, customer_id := customer_id,
             payment_method_id := payment_method_id, channel_id := channel_id,
             total_amount := total_amount,
             shipping_address := shipping_address, order_date := s.now,
             order_status := "Pending", ship_date := none }],
           order_items := s.order_items ++ rows,
           nextOrderId := oid + 1 })

/-- The non-emptiness gate of the Place Order button in
`create_order_page` (app.py:287-296): the presentation layer refuses an
empty shipping address or an empty item list before calling
`db.create_order`. -/
def place_order_gate (shipping_address : String) (items : List ItemInput) :
    Option String :=
  if shipping_address = "" then some "❌ Please enter shipping address"
  else if items.length = 0 then some "❌ Please add at least one item"
  else none

/-- `ECommerceDB.get_payment_methods` (db.py:370-385). -/
def get_payment_methods (conn : Bool) (s : DBState) : List (ℕ × String) :=
  if !conn then []
  else (s.payment_methods.filter (fun m => m.is_active)).map
    (fun m => (m.payment_method_id, m.method_name))

/-- `ECommerceDB.get_channels` (db.py:387-402). -/
def get_channels (conn : Bool) (s : DBState) : List (ℕ × String × String) :=
  if !conn then []
  else s.channels.map (fun c => (c.channel_id, c.channel_name, c.description))

/-- `ECommerceDB.get_customers` (db.py:404-423): all customers, newest
first by `created_at`. -/
def get_customers (conn : Bool) (s : DBState) :
    List (ℕ × String × String × String × String × String) :=
  if !conn then []
  else (sortDescBy (fun c => c.created_at) s.customers).map
    (fun c => (c.customer_id, c.first_name, c.last_name, c.email, c.phone,
      c.city))

/-- `ECommerceDB.get_product_categories` (db.py:425-445): active
categories, alphabetical by name. -/
def get_product_categories (conn : Bool) (s : DBState) :
    List (ℕ × String × String) :=
  if !conn then []
  else (sortAscStrBy (fun c => c.category_name)
      (s.product_categories.filter (fun c => c.is_active))).map
    (fun c => (c.category_id, c.category_name, c.description))

/-- `ECommerceDB.get_products_by_category` (db.py:447-467): active
products of one category, alphabetical by name. -/
def get_products_by_category (conn : Bool) (s : DBState) (category_id : ℕ) :
    List (ℕ × String × String × ℚ × ℕ) :=
  if !conn then []
  else (sortAscStrBy (fun p => p.product_name)
      (s.products.filter
        (fun p => p.category_id = category_id && p.is_active))).map
    (fun p => (p.product_id, p.product_name, p.description, p.unit_price,
      p.stock_quantity))

/-- `ECommerceDB.get_all_orders` (db.py:592-616): orders newest first,
inner-joined with customer, payment method and channel. -/
def get_all_orders (conn : Bool) (s : DBState) :
    List (ℕ × ℕ × Option ℕ × String × ℚ × String × String × String × String) :=
  if !conn then []
  else (sortDescBy (fun o => o.order_date) s.orders).filterMap (fun o =>
    match s.customers.find? (fun c => c.customer_id = o.customer_id),
        s.payment_methods.find?
          (fun m => m.payment_method_id = o.payment_method_id),
        s.channels.find? (fun ch => ch.channel_id = o.channel_id) with
    | some c, some m, some ch =>
      some (o.order_id, o.order_date, o.ship_date, o.order_status,
        o.total_amount, c.first_name, c.last_name, m.method_name,
        ch.channel_name)
    | _, _, _ => none)

/-- The dashboard summary returned by `get_dashboard_stats`. -/
structure DashboardStats where
  total_revenue : ℚ
  total_orders : ℕ
  total_customers : ℕ
  avg_order_value : ℚ
  orders_by_status : List (String × ℕ)
deriving DecidableEq, Repr

/-- Distinct strings in first-appearance order (SQL `GROUP BY` keys). -/
def distinctStrs (l : List String) : List String :=
  l.foldl (fun acc x => if acc.contains x then acc else acc ++ [x]) []

/-- `GROUP BY order_status` with `COUNT(*)`. -/
def statusGroups (orders : List OrderRow) : List (String × ℕ) :=
  (distinctStrs (orders.map (fun o => o.order_status))).map
    (fun st => (st, (orders.filter (fun o => o.order_status = st)).length))

/-- `ECommerceDB.get_dashboard_stats` (db.py:732-777): `None` when no
connection can be established, otherwise the aggregates. -/
def get_dashboard_stats (conn : Bool) (s : DBState) : Option DashboardStats :=
  if !conn then none
  else some {
    total_revenue := (s.orders.map (fun o => o.total_amount)).sum,
    total_orders := s.orders.length,
    total_customers := s.customers.length,
    avg_order_value :=
      if s.orders.length = 0 then 0
      else (s.orders.map (fun o => o.total_amount)).sum / s.orders.length,
    orders_by_status := statusGroups s.orders }

/-- `DataValidator.validate_ship_date` (db.py:114-138) on the values the
application passes: the stored order date and an optional ship date
(dates are modelled as timestamps; `st.date_input` always yields a
parseable date, so the unparseable branch is never reached from
`update_order_status`). -/
def validate_ship_date (order_date : ℕ) : Option ℕ → Bool × String
  | none => (true, "Valid")
  | some sd =>
    if sd < order_date then (false, "Ship date cannot be before order date")
    else (true, "Valid")

/-- `ECommerceDB.update_order_status` (db.py:493-550): read the order's
date and status; `not found` when no row matches; a supplied ship date is
validated against the stored order date before any `UPDATE` executes. -/
def update_order_status (conn : Bool) (s : DBState) (order_id : ℕ)
    (new_status : String) (ship_date : Option ℕ) : (Bool × String) × DBState :=
  if !conn then ((false, "Database connection failed"), s)
  else
    match s.orders.find? (fun o => o.order_id = order_id) with
    | none => ((false, "Order not found"), s)
    | some o =>
      match ship_date with
      | some sd =>
        match validate_ship_date o.order_date (some sd) with
        | (false, msg) => ((false, msg), s)
        | (true, _) =>
          ((true, "Order #" ++ toString order_id ++ " updated to '" ++
              new_status ++ "'"),
           { s with orders := s.orders.map (fun r =>
               if r.order_id = order_id then
                 { r with order_status := new_status, ship_date := some sd }
               else r) })
      | none =>
        ((true, "Order #" ++ toString order_id ++ " updated to '" ++
            new_status ++ "'"),
         { s with orders := s.orders.map (fun r =>
             if r.order_id = order_id then { r with order_status := new_status }
             else r) })

/-- SQL `DATE()` of a timestamp: the calendar day. -/
def dayOf (t : ℕ) : ℕ := t / 86400

/-- Insert a day into an ascending duplicate-free list of days. -/
def insAscDedup (d : ℕ) : List ℕ → List ℕ
  | [] => [d]
  | x :: xs =>
    if d < x then d :: x :: xs
    else if d = x then x :: xs
    else x :: insAscDedup d xs

/-- The distinct days of a list, in ascending order (`GROUP BY` day,
`ORDER BY date`). -/
def daysAsc (l : List ℕ) : List ℕ :=
  l.foldl (fun acc d => insAscDedup d acc) []

/-- The subquery `SELECT ... FROM orders ORDER BY order_date DESC
LIMIT n`: the `n` most recently dated orders. -/
def recentWindow (s : DBState) (limit : ℕ) : List OrderRow :=
  (sortDescBy (fun o => o.order_date) s.orders).take limit

/-- `GROUP BY DATE(order_date)` with `COUNT(*)`, `ORDER BY date`. -/
def ordersByDayRows (w : List OrderRow) : List (ℕ × ℕ) :=
  (daysAsc (w.map (fun o => dayOf o.order_date))).map
    (fun d => (d, (w.filter (fun o => dayOf o.order_date = d)).length))

/-- `GROUP BY DATE(order_date)` with `SUM(total_amount)`, `ORDER BY date`. -/
def revenueByDayRows (w : List OrderRow) : List (ℕ × ℚ) :=
  (daysAsc (w.map (fun o => dayOf o.order_date))).map
    (fun d => (d,
      ((w.filter (fun o => dayOf o.order_date = d)).map
        (fun o => o.total_amount)).sum))

/-- `ECommerceDB.get_orders_by_day` (db.py:661-689): group the `limit`
most recent orders by day, counting orders, ascending by date. -/
def get_orders_by_day (conn : Bool) (s : DBState) (limit : ℕ) :
    List (ℕ × ℕ) :=
  if !conn then [] else ordersByDayRows (recentWindow s limit)

/-- The grouped statement of `get_revenue_by_day` taken on its own
(db.py:639-651): revenue of the `limit` most recent orders grouped by
day, ascending by date.  This is what the function is documented to
return. -/
def revenue_by_day_query (s : DBState) (limit : ℕ) : List (ℕ × ℚ) :=
  revenueByDayRows (recentWindow s limit)

/-- `ECommerceDB.get_revenue_by_day` (db.py:621-659) as it actually
executes: before the grouped statement it runs
`SELECT DATE(order_date), SUM(total_amount) FROM orders ORDER BY
order_date DESC LIMIT %s` (db.py:629-636), which PostgreSQL rejects —
`order_date` is neither grouped nor aggregated — so `cursor.execute`
raises, the `except` handler runs, and the function returns `[]` on every
connected call; without a connection it also returns `[]`. -/
def get_revenue_by_day (conn : Bool) (s : DBState) (limit : ℕ) :
    List (ℕ × ℚ) :=
  if !conn then [] else []

/-! ### Generic lemmas about the embedded helpers -/

lemma dropWhile_length_le (p : α → Bool) :
    ∀ l : List α, (l.dropWhile p).length ≤ l.length := by
  intro l
  induction l with
  | nil => simp
  | cons x xs ih =>
    rw [List.dropWhile_cons]
    by_cases h : p x = true
    · simp only [h, if_true]
      calc (xs.dropWhile p).length ≤ xs.length := ih
        _ ≤ (x :: xs).length := by simp
    · simp [h]

lemma pyStripList_length_le (l : List Char) :
    (pyStripList l).length ≤ l.length := by
  unfold pyStripList
  calc ((l.dropWhile isPySpace).reverse.dropWhile isPySpace).reverse.length
      = ((l.dropWhile isPySpace).reverse.dropWhile isPySpace).length := by simp
    _ ≤ (l.dropWhile isPySpace).reverse.length := dropWhile_length_le _ _
    _ = (l.dropWhile isPySpace).length := by simp
    _ ≤ l.length := dropWhile_length_le _ _

lemma pyStrip_length_le (s : String) : (pyStrip s).length ≤ s.length :=
  pyStripList_length_le s.data

lemma isNameChar_eq_false_of_isDigit (c : Char) (h : c.isDigit = true) :
    isNameChar c = false := by
  simp [Char.isDigit, Char.isAlpha, Char.isUpper, Char.isLower, isNameChar,
    isPySpace, UInt32.le_def, UInt32.lt_def, BitVec.le_def, BitVec.lt_def,
    UInt32.toNat, Char.toNat, Char.ext_iff, UInt32.ext_iff,
    UInt32.toNat_ofNat] at *
  omega

/-- The amended acceptance condition of `validate_name`: at least 2
characters after trimming, at most 50 characters before trimming, and
every character drawn from the regex class (Khmer letters, Latin
letters, whitespace, hyphen, apostrophe). -/
lemma validate_name_accepts_iff (name f : String) :
    (validate_name name f).fst = true ↔
      (2 ≤ (pyStrip name).length ∧ name.length ≤ 50 ∧
        name.data.all isNameChar = true) := by
  have hlen : (pyStrip name).length ≤ name.length := pyStrip_length_le name
  have hdata : name.length = name.data.length := rfl
  unfold validate_name
  split_ifs with h1 h2 h3
  · simp only [Bool.false_eq_true, false_iff]
    simp only [Bool.or_eq_true, decide_eq_true_eq] at h1
    rintro ⟨hs, -, -⟩
    rcases h1 with h1 | h1
    · subst h1
      simp [pyStrip, pyStripList] at hs
    · omega
  · simp only [Bool.false_eq_true, false_iff]
    simp only [decide_eq_true_eq] at h2
    rintro ⟨-, hs, -⟩
    omega
  · simp only [Bool.and_eq_true, decide_eq_true_eq] at h3
    simp only [Bool.or_eq_true, decide_eq_true_eq, not_or, not_lt] at h1
    simp only [decide_eq_true_eq, not_lt] at h2
    exact iff_of_true rfl ⟨h1.2, h2, h3.2⟩
  · simp only [Bool.false_eq_true, false_iff]
    rintro ⟨hs, -, hall⟩
    apply h3
    simp only [Bool.and_eq_true, decide_eq_true_eq]
    refine ⟨?_, hall⟩
    intro hnil
    rw [hdata, hnil] at hlen
    simp at hlen
    omega

/-! ### C7: validate_amount -/

/-- C7: `validate_amount` accepts exactly the inputs that parse as a
number `q` with `0 ≤ q ≤ 999999.99`; a parse failure is rejected; in
particular `-1` and `1000000.00` are rejected and `999999.99` is
accepted. -/
theorem validate_amount_spec :
    (∀ p : FloatParse, (validate_amount p).fst = true ↔
      ∃ q : ℚ, p = .num q ∧ 0 ≤ q ∧ q ≤ 999999.99) ∧
    (validate_amount .err).fst = false ∧
    (validate_amount (.num (-1))).fst = false ∧
    (validate_amount (.num 1000000)).fst = false ∧
    (validate_amount (.num 999999.99)).fst = true := by
  refine ⟨?_, rfl, ?_, ?_, ?_⟩
  · intro p
    cases p with
    | err => simp [validate_amount]
    | num q =>
      simp only [validate_amount]
      split_ifs with h1 h2
      · simp only [Bool.false_eq_true, false_iff, FloatParse.num.injEq]
        rintro ⟨q', hq, h0, -⟩
        subst hq
        linarith
      · simp only [Bool.false_eq_true, false_iff, FloatParse.num.injEq]
        rintro ⟨q', hq, -, hle⟩
        subst hq
        linarith
      · simp only [true_iff, FloatParse.num.injEq]
        exact ⟨q, rfl, le_of_not_lt h1, le_of_not_lt h2⟩
  · norm_num [validate_amount]
  · norm_num [validate_amount]
  · norm_num [validate_amount]

/-- C7 witness: `validate_amount` accepts `10`. -/
theorem validate_amount_spec_witness : (validate_amount (.num 10)).fst = true :=
  (validate_amount_spec.1 (.num 10)).2 ⟨10, rfl, by norm_num, by norm_num⟩

/-! ### C8: validate_postal_code -/

/-- C8 counterexample: `"  12345"` trims to the 5 digits `12345`
(trimmed length 5, all digits), yet `validate_postal_code` rejects it,
because the 6-character maximum is checked on the untrimmed string. -/
theorem validate_postal_code_untrimmed_cex :
    (pyStrip "  12345").length = 5 ∧
    ((pyStrip "  12345").data.all Char.isDigit) = true ∧
    (validate_postal_code "  12345").fst = false := by
  refine ⟨by decide, by decide, by decide⟩

/-- C8 amended: `validate_postal_code` accepts `s` iff the trimmed `s`
has length at least 5, the *untrimmed* `s` has length at most 6, and the
trimmed `s` consists entirely of digits (so the trimmed length is in
`[5,6]`, but only because the untrimmed bound forces it). -/
theorem validate_postal_code_spec (s : String) :
    (validate_postal_code s).fst = true ↔
      (5 ≤ (pyStrip s).length ∧ s.length ≤ 6 ∧
        (pyStrip s).data.all Char.isDigit = true) := by
  have hlen : (pyStrip s).length ≤ s.length := pyStrip_length_le s
  have hdl : (pyStrip s).length = (pyStrip s).data.length := rfl
  unfold validate_postal_code
  split_ifs with h1 h2 h3
  · simp only [Bool.false_eq_true, false_iff]
    simp only [Bool.or_eq_true, decide_eq_true_eq] at h1
    rintro ⟨hs, -, -⟩
    rcases h1 with h1 | h1
    · subst h1
      simp [pyStrip, pyStripList] at hs
    · omega
  · simp only [Bool.false_eq_true, false_iff]
    simp only [decide_eq_true_eq] at h2
    rintro ⟨-, hs, -⟩
    omega
  · simp only [Bool.and_eq_true, decide_eq_true_eq] at h3
    simp only [Bool.or_eq_true, decide_eq_true_eq, not_or, not_lt] at h1
    simp only [decide_eq_true_eq, not_lt] at h2
    exact iff_of_true rfl ⟨h1.2, h2, h3.1.1⟩
  · simp only [Bool.false_eq_true, false_iff]
    rintro ⟨h5, h6, hall⟩
    apply h3
    simp only [Bool.and_eq_true, decide_eq_true_eq]
    exact ⟨⟨hall, h5⟩, by omega⟩

/-- C8 witness: `"12345"` is accepted via the amended condition. -/
theorem validate_postal_code_spec_witness :
    (validate_postal_code "12345").fst = true ∧
    (validate_postal_code "abcde").fst = false :=
  ⟨(validate_postal_code_spec "12345").2 (by decide), by decide⟩

/-! ### C9: validate_name -/

/-- C9 counterexample: `".."` has trimmed length 2 (within `[2,50]`) and
contains no digit, yet `validate_name` rejects it: the regex class admits
only Khmer/Latin letters, whitespace, hyphens and apostrophes, not
arbitrary non-digit characters. -/
theorem validate_name_charclass_cex :
    (validate_name ".." "Name").fst = false ∧
    2 ≤ (pyStrip "..").length ∧ (pyStrip "..").length ≤ 50 ∧
    ("..".data.all (fun c => !c.isDigit)) = true := by
  refine ⟨by decide, by decide, by decide, by decide⟩

/-- C9 amended: `validate_name` accepts iff the trimmed length is at
least 2, the untrimmed length at most 50, and every character is a
Khmer letter, Latin letter, whitespace, hyphen or apostrophe; since no
digit is in that class, every name containing a digit is rejected (the
spec's universal rejection property holds). -/
theorem validate_name_spec (name f : String) :
    ((validate_name name f).fst = true ↔
      (2 ≤ (pyStrip name).length ∧ name.length ≤ 50 ∧
        name.data.all isNameChar = true)) ∧
    ((∃ c ∈ name.data, c.isDigit) → (validate_name name f).fst = false) := by
  refine ⟨validate_name_accepts_iff name f, ?_⟩
  rintro ⟨c, hc, hd⟩
  cases hb : (validate_name name f).fst with
  | false => rfl
  | true =>
    have hall := ((validate_name_accepts_iff name f).1 hb).2.2
    rw [List.all_eq_true] at hall
    have := hall c hc
    rw [isNameChar_eq_false_of_isDigit c hd] at this
    simp at this

/-- C9 witness: `"Dara"` is accepted; `"a1b"` (contains a digit) is
rejected. -/
theorem validate_name_spec_witness :
    (validate_name "Dara" "First name").fst = true ∧
    (validate_name "a1b" "Name").fst = false :=
  ⟨((validate_name_spec "Dara" "First name").1).2 (by decide),
   (validate_name_spec "a1b" "Name").2 ⟨'1', by decide, by decide⟩⟩

/-! ### Sample states used in closed witnesses and counterexamples -/

/-- A concrete customer row. -/
def sampleCustomer : CustomerRow :=
  { customer_id := 1, first_name := "Dara", last_name := "Sok",
    email := "user@example.com", phone := "012345678", address := "Street 1",
    city := "Phnom Penh", postal_code := "120101", created_at := 10 }

/-- A reachable store holding one customer. -/
def sampleDB : DBState := { emptyDB with customers := [sampleCustomer] }

/-- A concrete order row, dated day 10. -/
def sampleOrder : OrderRow :=
  { order_id := 1, customer_id := 1, payment_method_id := 1, channel_id := 1,
    total_amount := 50, shipping_address := "Street 1",
    order_date := 86400 * 10, order_status := "Pending", ship_date := none }

/-- A reachable store holding one order. -/
def ordersDB : DBState := { emptyDB with orders := [sampleOrder], nextOrderId := 2 }

/-! ### C3: read operations on empty or unreachable stores -/

/-- C3 counterexample: when no connection can be established,
`get_customers` on a store that does hold customers returns `[]` — the
very value it returns on a reachable empty store.  The storage-error
result is *not* distinguishable from the empty collection. -/
theorem read_conn_failure_equals_empty_cex :
    get_customers false sampleDB = get_customers true emptyDB ∧
    get_customers false sampleDB = [] :=
  ⟨rfl, rfl⟩

/-- C3 amended: every modelled read operation returns the empty
collection when the store is reachable but holds no matching rows, and
returns the *same* empty collection (not a distinguishable storage-error
value) when no connection can be established; only
`get_dashboard_stats` signals connection failure distinguishably, by
returning `None`.  (`get_revenue_by_day` returns `[]` even when
connected, see C4.) -/
theorem read_ops_empty_or_unreachable (s : DBState) (cat n : ℕ) :
    (s.customers = [] → get_customers true s = []) ∧
    (s.orders = [] → get_all_orders true s = []) ∧
    (s.product_categories.filter (fun c => c.is_active) = [] →
      get_product_categories true s = []) ∧
    (s.products.filter (fun p => p.category_id = cat && p.is_active) = [] →
      get_products_by_category true s cat = []) ∧
    (s.payment_methods.filter (fun m => m.is_active) = [] →
      get_payment_methods true s = []) ∧
    (s.channels = [] → get_channels true s = []) ∧
    (s.orders = [] → get_orders_by_day true s n = []) ∧
    get_customers false s = [] ∧
    get_all_orders false s = [] ∧
    get_product_categories false s = [] ∧
    get_products_by_category false s cat = [] ∧
    get_payment_methods false s = [] ∧
    get_channels false s = [] ∧
    get_orders_by_day false s n = [] ∧
    get_revenue_by_day false s n = [] ∧
    get_revenue_by_day true s n = [] ∧
    get_dashboard_stats false s = none := by
  refine ⟨?_, ?_, ?_, ?_, ?_, ?_, ?_, rfl, rfl, rfl, rfl, rfl, rfl, rfl,
    rfl, rfl, rfl⟩
  · intro h
    simp [get_customers, h, sortDescBy]
  · intro h
    simp [get_all_orders, h, sortDescBy]
  · intro h
    simp [get_product_categories, h, sortAscStrBy]
  · intro h
    simp [get_products_by_category, h, sortAscStrBy]
  · intro h
    simp [get_payment_methods, h]
  · intro h
    simp [get_channels, h]
  · intro h
    simp [get_orders_by_day, recentWindow, h, sortDescBy, ordersByDayRows,
      daysAsc]

/-- C3 witness: the empty-store and unreachable-store cases at concrete
inputs. -/
theorem read_ops_empty_or_unreachable_witness :
    get_customers true emptyDB = [] ∧ get_payment_methods false emptyDB = [] := by
  obtain ⟨h1, h2, h3, h4, h5, h6, h7, h8, h9, h10, h11, h12, h13, h14, h15,
    h16, h17⟩ := read_ops_empty_or_unreachable emptyDB 1 200
  exact ⟨h1 rfl, h12⟩

/-! ### C5: duplicate email on add_customer -/

/-- C5: when all field validators pass and a customer with the given
email already exists, the storage layer's uniqueness violation is rolled
back and surfaced as the distinct duplicate-email message, not a generic
storage failure; the store is left unchanged. -/
theorem add_customer_duplicate_email (s : DBState)
    (fn ln em ph ad ci pc : String)
    (h1 : (validate_name fn "First name").fst = true)
    (h2 : (validate_name ln "Last name").fst = true)
    (h3 : (validate_email em).fst = true)
    (h4 : (validate_phone ph).fst = true)
    (h5 : (validate_postal_code pc).fst = true)
    (hdup : ∃ c ∈ s.customers, c.email = em) :
    add_customer true s fn ln em ph ad ci pc =
      ((false, "Email already exists in the system"), s) := by
  rcases hv1 : validate_name fn "First name" with ⟨b1, m1⟩
  rcases hv2 : validate_name ln "Last name" with ⟨b2, m2⟩
  rcases hv3 : validate_email em with ⟨b3, m3⟩
  rcases hv4 : validate_phone ph with ⟨b4, m4⟩
  rcases hv5 : validate_postal_code pc with ⟨b5, m5⟩
  rw [hv1] at h1; rw [hv2] at h2; rw [hv3] at h3; rw [hv4] at h4
  rw [hv5] at h5
  simp only at h1 h2 h3 h4 h5
  subst h1; subst h2; subst h3; subst h4; subst h5
  have hany : s.customers.any (fun c => c.email = em) = true := by
    rcases hdup with ⟨c, hc, he⟩
    rw [List.any_eq_true]
    exact ⟨c, hc, by simp [he]⟩
  have hsub : strContains "email".data pgDuplicateEmailMsg.data = true := by
    decide
  unfold add_customer
  rw [hv1, hv2, hv3, hv4, hv5]
  simp only [List.find?, Bool.not_true, Bool.not_false]
  simp [hany, hsub]

/-- C5 witness: registering the same email twice at concrete inputs. -/
theorem add_customer_duplicate_email_witness :
    add_customer true sampleDB "Dara" "Sok" "user@example.com" "012345678"
      "Street 1" "Phnom Penh" "120101" =
      ((false, "Email already exists in the system"), sampleDB) :=
  add_customer_duplicate_email sampleDB "Dara" "Sok" "user@example.com"
    "012345678" "Street 1" "Phnom Penh" "120101" (by decide) (by decide)
    (by decide) (by decide) (by decide)
    ⟨sampleCustomer, List.mem_singleton.2 rfl, rfl⟩

/-! ### C6: update_order_status failure cases leave the order unchanged -/

/-- C6: `update_order_status` returns `Order not found` (store
unchanged) when no order has the given id, and when a supplied ship date
is rejected against the stored order date it returns the rejection
without executing any update — the store, hence the order row's status
and ship date, is returned unchanged in both cases. -/
theorem update_order_status_failures_frame (s : DBState) (oid : ℕ)
    (st : String) (sd : Option ℕ) :
    (s.orders.find? (fun o => o.order_id = oid) = none →
      update_order_status true s oid st sd = ((false, "Order not found"), s)) ∧
    (∀ o, s.orders.find? (fun o => o.order_id = oid) = some o →
      ∀ d, sd = some d →
      (validate_ship_date o.order_date (some d)).fst = false →
      update_order_status true s oid st sd =
        ((false, (validate_ship_date o.order_date (some d)).snd), s)) := by
  constructor
  · intro h
    unfold update_order_status
    simp only [Bool.not_true, Bool.false_eq_true, if_false]
    rw [h]
  · intro o ho d hd hval
    subst hd
    rcases hv : validate_ship_date o.order_date (some d) with ⟨b, m⟩
    rw [hv] at hval
    simp only at hval
    subst hval
    simp only [update_order_status, Bool.not_true, Bool.false_eq_true,
      if_false, ho, hv]

/-- C6 witness: an unknown order id, and a ship date one day before the
stored order date, both fail and leave the store unchanged. -/
theorem update_order_status_failures_frame_witness :
    update_order_status true ordersDB 99 "Shipped" none =
      ((false, "Order not found"), ordersDB) ∧
    update_order_status true ordersDB 1 "Shipped" (some (86400 * 9)) =
      ((false, "Ship date cannot be before order date"), ordersDB) := by
  constructor
  · exact (update_order_status_failures_frame ordersDB 99 "Shipped" none).1
      (by rfl)
  · exact (update_order_status_failures_frame ordersDB 1 "Shipped"
      (some (86400 * 9))).2 sampleOrder (by rfl) (86400 * 9) rfl (by rfl)

/-! ### create_order: C1, C2, C10 -/

/-- The first rejection message the item loop produces for one item:
quantity is validated before unit price (db.py:344-350); `none` when the
item passes both validators. -/
def itemRejectMsg (it : ItemInput) : Option String :=
  match validate_quantity (.num it.quantity) with
  | (false, msg) => some msg
  | (true, _) =>
    match validate_amount (.num it.unit_price) with
    | (false, msg) => some msg
    | (true, _) => none

lemma insertItems_ok (oid : ℕ) (itemErr : ℕ → Option String) :
    ∀ (items : List ItemInput) (i : ℕ),
      (∀ it ∈ items, itemRejectMsg it = none) →
      (∀ j, itemErr j = none) →
      insertItems oid itemErr i items = .ok (items.map (mkItemRow oid)) := by
  intro items
  induction items with
  | nil => intro i _ _; rfl
  | cons it rest ih =>
    intro i hall herr
    have h1 := hall it (List.mem_cons_self it rest)
    unfold itemRejectMsg at h1
    rcases hq : validate_quantity (.num it.quantity) with ⟨bq, mq⟩
    rw [hq] at h1
    cases bq with
    | false => simp at h1
    | true =>
      rcases ha : validate_amount (.num it.unit_price) with ⟨ba, ma⟩
      rw [ha] at h1
      cases ba with
      | false => simp at h1
      | true =>
        have hr := ih (i + 1) (fun x hx => hall x (List.mem_cons_of_mem _ hx))
          herr
        simp only [insertItems, hq, ha, herr i, hr, List.map_cons]

lemma insertItems_first_bad (oid : ℕ) (itemErr : ℕ → Option String) :
    ∀ (pre : List ItemInput) (bad : ItemInput) (rest : List ItemInput)
      (m : String) (i : ℕ),
      (∀ it ∈ pre, itemRejectMsg it = none) →
      (∀ j, j < pre.length → itemErr (i + j) = none) →
      itemRejectMsg bad = some m →
      insertItems oid itemErr i (pre ++ bad :: rest) = .error m := by
  intro pre
  induction pre with
  | nil =>
    intro bad rest m i _ _ hbad
    unfold itemRejectMsg at hbad
    rcases hq : validate_quantity (.num bad.quantity) with ⟨bq, mq⟩
    rw [hq] at hbad
    cases bq with
    | false =>
      simp only [Option.some.injEq] at hbad
      subst hbad
      simp only [List.nil_append, insertItems, hq]
    | true =>
      rcases ha : validate_amount (.num bad.unit_price) with ⟨ba, ma⟩
      rw [ha] at hbad
      cases ba with
      | false =>
        simp only [Option.some.injEq] at hbad
        subst hbad
        simp only [List.nil_append, insertItems, hq, ha]
      | true => simp at hbad
  | cons p pre ih =>
    intro bad rest m i hall herr hbad
    have h1 := hall p (List.mem_cons_self p pre)
    unfold itemRejectMsg at h1
    rcases hq : validate_quantity (.num p.quantity) with ⟨bq, mq⟩
    rw [hq] at h1
    cases bq with
    | false => simp at h1
    | true =>
      rcases ha : validate_amount (.num p.unit_price) with ⟨ba, ma⟩
      rw [ha] at h1
      cases ba with
      | false => simp at h1
      | true =>
        have he0 : itemErr i = none := by
          have := herr 0 (by simp)
          simpa using this
        have hrec := ih bad rest m (i + 1)
          (fun x hx => hall x (List.mem_cons_of_mem _ hx))
          (fun j hj => by
            have hjs : j + 1 < (p :: pre).length := by
              simp only [List.length_cons]
              omega
            have := herr (j + 1) hjs
            rw [show i + (j + 1) = i + 1 + j by omega] at this
            exact this) hbad
        simp only [List.cons_append, insertItems, hq, ha, he0,
          List.append_eq, hrec]

/-- C1 amended: (a) whenever `create_order` returns a failure — invalid
amount, no connection, invalid item, or a storage error anywhere in the
item-insert loop — the transaction is rolled back: the persisted state is
returned unchanged, so neither the order header nor any order-item row
survives; (b) when the first failure is an invalid item, the returned
reason is that item's rejection message *prefixed with
`"Error creating order: "`* (the claim stated the bare message). -/
theorem create_order_failure_rolls_back :
    (∀ (conn : Bool) (itemErr : ℕ → Option String) (s : DBState)
      (cid pm ch : ℕ) (total : ℚ) (addr : String) (items : List ItemInput),
      (create_order conn itemErr s cid pm ch total addr items).fst.fst =
        false →
      (create_order conn itemErr s cid pm ch total addr items).snd = s) ∧
    (∀ (itemErr : ℕ → Option String) (s : DBState) (cid pm ch : ℕ)
      (total : ℚ) (addr : String) (pre : List ItemInput) (bad : ItemInput)
      (rest : List ItemInput) (m : String),
      (validate_amount (.num total)).fst = true →
      (∀ it ∈ pre, itemRejectMsg it = none) →
      (∀ j, j < pre.length → itemErr j = none) →
      itemRejectMsg bad = some m →
      create_order true itemErr s cid pm ch total addr (pre ++ bad :: rest) =
        ((false, "Error creating order: " ++ m), s)) := by
  constructor
  · intro conn itemErr s cid pm ch total addr items h
    unfold create_order at h ⊢
    rcases hv : validate_amount (.num total) with ⟨b, m⟩
    rw [hv] at h
    cases b with
    | false => rfl
    | true =>
      cases conn with
      | false => rfl
      | true =>
        rcases hins : insertItems s.nextOrderId itemErr 0 items with e | rows
        · simp [hins]
        · simp [hins] at h
  · intro itemErr s cid pm ch total addr pre bad rest m htot hpre herr hbad
    rcases hv : validate_amount (.num total) with ⟨b, mm⟩
    rw [hv] at htot
    simp only at htot
    subst htot
    have hins := insertItems_first_bad s.nextOrderId itemErr pre bad rest m 0
      hpre (fun j hj => by simpa using herr j hj) hbad
    unfold create_order
    simp [hv, hins]

/-- C1 witness: a quantity-0 item with no storage error rolls back to the
original state with the prefixed message, and a rejected order-level
amount also leaves the state unchanged. -/
theorem create_order_failure_rolls_back_witness :
    create_order true (fun _ => none) emptyDB 1 1 1 10 "addr"
      ([] ++ { product_name := "Widget", quantity := 0,
               unit_price := (5 : ℚ) } :: []) =
      ((false, "Error creating order: " ++ "Quantity must be greater than 0"),
        emptyDB) ∧
    (create_order false (fun _ => none) emptyDB 1 1 1 (-5) "addr" []).snd =
      emptyDB :=
  ⟨create_order_failure_rolls_back.2 (fun _ => none) emptyDB 1 1 1 10 "addr"
      [] _ [] _ (by norm_num [validate_amount]) (by simp) (by simp)
      (by decide),
   create_order_failure_rolls_back.1 false (fun _ => none) emptyDB 1 1 1
      (-5) "addr" [] (by norm_num [create_order, validate_amount])⟩

/-- C1 counterexample: for a quantity-0 item the transaction is rolled
back (state unchanged) but the returned reason is
`"Error creating order: Quantity must be greater than 0"`, which is not
the item's bare rejection message `"Quantity must be greater than 0"`
claimed by the spec. -/
theorem create_order_message_prefix_cex :
    (create_order true (fun _ => none) emptyDB 1 1 1 10 "addr"
      [{ product_name := "Widget", quantity := 0,
         unit_price := (5 : ℚ) }]).fst =
      (false, "Error creating order: Quantity must be greater than 0") ∧
    (create_order true (fun _ => none) emptyDB 1 1 1 10 "addr"
      [{ product_name := "Widget", quantity := 0,
         unit_price := (5 : ℚ) }]).snd = emptyDB ∧
    "Error creating order: Quantity must be greater than 0" ≠
      "Quantity must be greater than 0" := by
  have hins : insertItems emptyDB.nextOrderId (fun _ => none) 0
      [{ product_name := "Widget", quantity := 0, unit_price := (5 : ℚ) }] =
      .error "Quantity must be greater than 0" := by
    simp only [insertItems, validate_quantity]
    norm_num
  have hco : create_order true (fun _ => none) emptyDB 1 1 1 10 "addr"
      [{ product_name := "Widget", quantity := 0, unit_price := (5 : ℚ) }] =
      ((false, "Error creating order: Quantity must be greater than 0"),
        emptyDB) := by
    unfold create_order
    rw [show validate_amount (.num 10) = (true, "Valid") from by
      norm_num [validate_amount]]
    simp only [hins]
    rfl
  exact ⟨by rw [hco], by rw [hco], by decide⟩

/-- C2: with a valid order-level amount, a connection, all items valid
and no storage error, `create_order` commits: the header stores the
caller-supplied `total_amount` exactly as given (never recomputed from
the items, even if inconsistent with their sum), and every persisted
order-item row carries `subtotal = quantity * unit_price` as computed by
the service at insert time. -/
theorem create_order_subtotals_and_total (itemErr : ℕ → Option String)
    (s : DBState) (cid pm ch : ℕ) (total : ℚ) (addr : String)
    (items : List ItemInput)
    (htot : (validate_amount (.num total)).fst = true)
    (hitems : ∀ it ∈ items, itemRejectMsg it = none)
    (herr : ∀ j, itemErr j = none) :
    create_order true itemErr s cid pm ch total addr items =
      ((true, "Order created successfully! Order ID: " ++
          toString s.nextOrderId),
       { s with
         orders := s.orders ++ [{
           order_id := s.nextOrderId, customer_id := cid,
           payment_method_id := pm, channel_id := ch, total_amount := total,
           shipping_address := addr, order_date := s.now,
           order_status := "Pending", ship_date := none }],
         order_items := s.order_items ++ items.map (mkItemRow s.nextOrderId),
         nextOrderId := s.nextOrderId + 1 }) ∧
    (∀ r ∈ items.map (mkItemRow s.nextOrderId),
      r.subtotal = (r.quantity : ℚ) * r.unit_price) := by
  constructor
  · rcases hv : validate_amount (.num total) with ⟨b, m⟩
    rw [hv] at htot
    simp only at htot
    subst htot
    have hins := insertItems_ok s.nextOrderId itemErr items 0 hitems herr
    unfold create_order
    simp [hv, hins]
  · intro r hr
    rw [List.mem_map] at hr
    obtain ⟨it, _, hmk⟩ := hr
    rw [← hmk]
    simp [mkItemRow]

/-- C2 witness: two valid items with an order total of `100` that is
inconsistent with the summed subtotals (`2*3 + 1*5 = 11`); the header
still stores `100`, and each row's subtotal is quantity times price. -/
theorem create_order_subtotals_and_total_witness :
    (create_order true (fun _ => none) emptyDB 1 1 1 100 "addr"
      [{ product_name := "A", quantity := 2, unit_price := (3 : ℚ) },
       { product_name := "B", quantity := 1, unit_price := (5 : ℚ) }] =
      ((true, "Order created successfully! Order ID: " ++
          toString emptyDB.nextOrderId),
       { emptyDB with
         orders := emptyDB.orders ++ [{
           order_id := emptyDB.nextOrderId, customer_id := 1,
           payment_method_id := 1, channel_id := 1, total_amount := 100,
           shipping_address := "addr", order_date := emptyDB.now,
           order_status := "Pending", ship_date := none }],
         order_items := emptyDB.order_items ++
           [{ product_name := "A", quantity := 2, unit_price := (3 : ℚ) },
            { product_name := "B", quantity := 1,
              unit_price := (5 : ℚ) }].map (mkItemRow emptyDB.nextOrderId),
         nextOrderId := emptyDB.nextOrderId + 1 }) ∧
     (∀ r ∈ [{ product_name := "A", quantity := 2, unit_price := (3 : ℚ) },
             { product_name := "B", quantity := 1,
               unit_price := (5 : ℚ) }].map (mkItemRow emptyDB.nextOrderId),
       r.subtotal = (r.quantity : ℚ) * r.unit_price)) ∧
    (mkItemRow 1 ⟨"A", 2, (3 : ℚ)⟩).subtotal = 6 ∧
    (100 : ℚ) ≠ 2 * 3 + 1 * 5 :=
  ⟨create_order_subtotals_and_total (fun _ => none) emptyDB 1 1 1 100 "addr"
      _ (by norm_num [validate_amount])
      (by
        intro it hit
        simp only [List.mem_cons, List.not_mem_nil, or_false] at hit
        rcases hit with h | h <;> subst h <;>
          norm_num [itemRejectMsg, validate_quantity, validate_amount])
      (fun _ => rfl),
   by norm_num [mkItemRow], by norm_num⟩

/-- C10: `create_order` with an empty item list and a valid amount
succeeds: the header row is committed with the generated id returned in
the message and no order-item row is inserted — the service performs no
non-emptiness check; that check lives only in the presentation layer's
Place Order gate. -/
theorem create_order_empty_items (itemErr : ℕ → Option String) (s : DBState)
    (cid pm ch : ℕ) (total : ℚ) (addr : String)
    (htot : (validate_amount (.num total)).fst = true) :
    create_order true itemErr s cid pm ch total addr [] =
      ((true, "Order created successfully! Order ID: " ++
          toString s.nextOrderId),
       { s with
         orders := s.orders ++ [{
           order_id := s.nextOrderId, customer_id := cid,
           payment_method_id := pm, channel_id := ch, total_amount := total,
           shipping_address := addr, order_date := s.now,
           order_status := "Pending", ship_date := none }],
         order_items := s.order_items,
         nextOrderId := s.nextOrderId + 1 }) ∧
    (∀ a : String, a ≠ "" →
      place_order_gate a [] = some "❌ Please add at least one item") := by
  constructor
  · rcases hv : validate_amount (.num total) with ⟨b, m⟩
    rw [hv] at htot
    simp only at htot
    subst htot
    unfold create_order
    rw [hv]
    simp only [Bool.not_true, Bool.false_eq_true, if_false, insertItems,
      List.map_nil, List.append_nil]
  · intro a ha
    simp [place_order_gate, ha]

/-- C10 witness: an order with no items and amount `20` commits a header
with no item rows; the presentation gate refuses the empty item list. -/
theorem create_order_empty_items_witness :
    create_order true (fun _ => none) emptyDB 1 1 1 20 "addr" [] =
      ((true, "Order created successfully! Order ID: " ++
          toString emptyDB.nextOrderId),
       { emptyDB with
         orders := emptyDB.orders ++ [{
           order_id := emptyDB.nextOrderId, customer_id := 1,
           payment_method_id := 1, channel_id := 1, total_amount := 20,
           shipping_address := "addr", order_date := emptyDB.now,
           order_status := "Pending", ship_date := none }],
         order_items := emptyDB.order_items,
         nextOrderId := emptyDB.nextOrderId + 1 }) ∧
    (∀ a : String, a ≠ "" →
      place_order_gate a [] = some "❌ Please add at least one item") :=
  create_order_empty_items (fun _ => none) emptyDB 1 1 1 20 "addr"
    (by norm_num [validate_amount])

/-! ### C4: day aggregation over the N most recent orders -/

lemma insDescBy_length (key : α → ℕ) (x : α) (l : List α) :
    (insDescBy key x l).length = l.length + 1 := by
  induction l with
  | nil => rfl
  | cons y ys ih =>
    simp only [insDescBy]
    split
    · simp
    · simp [ih]

lemma sortDescBy_aux_length (key : α → ℕ) (l : List α) :
    ∀ acc : List α,
      (l.foldl (fun a y => insDescBy key y a) acc).length =
        acc.length + l.length := by
  induction l with
  | nil => intro acc; simp
  | cons x xs ih =>
    intro acc
    simp only [List.foldl_cons]
    rw [ih, insDescBy_length]
    simp only [List.length_cons]
    omega

lemma sortDescBy_length (key : α → ℕ) (l : List α) :
    (sortDescBy key l).length = l.length := by
  unfold sortDescBy
  rw [sortDescBy_aux_length]
  simp

lemma mem_insDescBy (key : α → ℕ) (x a : α) (l : List α) :
    a ∈ insDescBy key x l ↔ a = x ∨ a ∈ l := by
  induction l with
  | nil => simp [insDescBy]
  | cons y ys ih =>
    simp only [insDescBy]
    split
    · simp only [List.mem_cons]
    · simp only [List.mem_cons, ih]
      tauto

lemma sortDescBy_aux_mem (key : α → ℕ) (a : α) (l : List α) :
    ∀ acc : List α,
      (a ∈ l.foldl (fun ac y => insDescBy key y ac) acc ↔
        a ∈ acc ∨ a ∈ l) := by
  induction l with
  | nil => intro acc; simp
  | cons x xs ih =>
    intro acc
    simp only [List.foldl_cons]
    rw [ih, mem_insDescBy]
    simp only [List.mem_cons]
    tauto

lemma mem_sortDescBy (key : α → ℕ) (a : α) (l : List α) :
    a ∈ sortDescBy key l ↔ a ∈ l := by
  unfold sortDescBy
  rw [sortDescBy_aux_mem]
  simp

lemma take_insDescBy (key : α → ℕ) (x : α) :
    ∀ (l : List α) (n : ℕ), n ≤ l.length →
      (∀ y ∈ l.take n, key x ≤ key y) →
      (insDescBy key x l).take n = l.take n := by
  intro l
  induction l with
  | nil =>
    intro n hn _
    simp only [List.length_nil, Nat.le_zero] at hn
    subst hn
    simp
  | cons y ys ih =>
    intro n hn hall
    cases n with
    | zero => simp
    | succ k =>
      have hxy : key x ≤ key y := hall y (by simp)
      simp only [insDescBy]
      rw [if_neg (by omega)]
      simp only [List.take_succ_cons]
      rw [ih k (by simpa using hn)
        (fun z hz => hall z (by simp [List.take_succ_cons, hz]))]

lemma insDescBy_eq_cons (key : α → ℕ) (x : α) (l : List α)
    (h : ∀ y ∈ l, key y < key x) : insDescBy key x l = x :: l := by
  cases l with
  | nil => rfl
  | cons y ys =>
    simp only [insDescBy]
    rw [if_pos (h y (by simp))]

lemma sortDescBy_append_one (key : α → ℕ) (l : List α) (x : α) :
    sortDescBy key (l ++ [x]) = insDescBy key x (sortDescBy key l) := by
  unfold sortDescBy
  rw [List.foldl_append]
  simp

lemma mem_insAscDedup (d a : ℕ) (l : List ℕ) :
    a ∈ insAscDedup d l ↔ a = d ∨ a ∈ l := by
  induction l with
  | nil => simp [insAscDedup]
  | cons x xs ih =>
    simp only [insAscDedup]
    split
    · simp only [List.mem_cons]
    · split
      · next h1 h2 =>
        subst h2
        simp only [List.mem_cons]
        tauto
      · simp only [List.mem_cons, ih]
        tauto

lemma daysAsc_aux_mem (a : ℕ) (l : List ℕ) :
    ∀ acc : List ℕ,
      (a ∈ l.foldl (fun ac d => insAscDedup d ac) acc ↔
        a ∈ acc ∨ a ∈ l) := by
  induction l with
  | nil => intro acc; simp
  | cons x xs ih =>
    intro acc
    simp only [List.foldl_cons]
    rw [ih, mem_insAscDedup]
    simp only [List.mem_cons]
    tauto

lemma mem_daysAsc (a : ℕ) (l : List ℕ) : a ∈ daysAsc l ↔ a ∈ l := by
  unfold daysAsc
  rw [daysAsc_aux_mem]
  simp

lemma head_insAscDedup (d : ℕ) (l : List ℕ) :
    (insAscDedup d l).head? = some d ∨ (insAscDedup d l).head? = l.head? := by
  cases l with
  | nil => left; rfl
  | cons x xs =>
    simp only [insAscDedup]
    split
    · left; rfl
    · split
      · right; rfl
      · right; rfl

lemma chain_insAscDedup (d : ℕ) :
    ∀ l : List ℕ, List.Chain' (· < ·) l →
      List.Chain' (· < ·) (insAscDedup d l) := by
  intro l
  induction l with
  | nil => intro _; simp [insAscDedup]
  | cons x xs ih =>
    intro hc
    simp only [insAscDedup]
    split
    · next h1 =>
      rw [List.chain'_cons]
      exact ⟨h1, hc⟩
    · split
      · exact hc
      · next h1 h2 =>
        have hx : x < d := by omega
        have hrec := ih (hc.tail)
        rw [List.chain'_cons']
        refine ⟨?_, hrec⟩
        intro y hy
        rcases head_insAscDedup d xs with h | h
        · rw [h] at hy
          simp only [Option.mem_def, Option.some.injEq] at hy
          omega
        · rw [h] at hy
          exact (List.chain'_cons'.1 hc).1 y hy

lemma chain_daysAsc_aux (l : List ℕ) :
    ∀ acc : List ℕ, List.Chain' (· < ·) acc →
      List.Chain' (· < ·) (l.foldl (fun ac d => insAscDedup d ac) acc) := by
  induction l with
  | nil => intro acc h; simpa using h
  | cons x xs ih =>
    intro acc h
    simp only [List.foldl_cons]
    exact ih _ (chain_insAscDedup x acc h)

lemma chain_daysAsc (l : List ℕ) : List.Chain' (· < ·) (daysAsc l) :=
  chain_daysAsc_aux l [] List.chain'_nil

lemma ordersByDayRows_fst (w : List OrderRow) :
    (ordersByDayRows w).map Prod.fst =
      daysAsc (w.map (fun o => dayOf o.order_date)) := by
  simp [ordersByDayRows, List.map_map, Function.comp_def]

lemma revenueByDayRows_fst (w : List OrderRow) :
    (revenueByDayRows w).map Prod.fst =
      daysAsc (w.map (fun o => dayOf o.order_date)) := by
  simp [revenueByDayRows, List.map_map, Function.comp_def]

lemma recentWindow_append (s : DBState) (o : OrderRow) (N : ℕ)
    (hlen : N ≤ s.orders.length)
    (hold : ∀ x ∈ recentWindow s N, o.order_date < x.order_date) :
    recentWindow { s with orders := s.orders ++ [o] } N = recentWindow s N := by
  unfold recentWindow at *
  show (sortDescBy (fun r => r.order_date) (s.orders ++ [o])).take N = _
  rw [sortDescBy_append_one]
  apply take_insDescBy
  · rw [sortDescBy_length]
    exact hlen
  · intro y hy
    exact le_of_lt (hold y hy)

/-- C4: (a) as written, `get_revenue_by_day` returns `[]` on *every*
call — its first SQL statement applies `SUM` to `orders` while selecting
the non-grouped `order_date`, which PostgreSQL rejects, so the exception
handler always fires (the code bug); (b) the surviving twin
`get_orders_by_day`, and the grouped statement `revenue_by_day_query`
that `get_revenue_by_day` was intended to run, implement exactly the
claimed semantics: restrict to the `N` most recently dated orders, then
group that window by calendar day, ascending by date; hence adding an
order strictly older than the whole window leaves the output unchanged,
while adding a new most-recent order makes its day appear. -/
theorem day_aggregation_window_and_revenue_bug (s : DBState) (N : ℕ)
    (o : OrderRow) :
    (∀ (conn : Bool) (s2 : DBState) (n : ℕ),
      get_revenue_by_day conn s2 n = []) ∧
    List.Chain' (· < ·) ((get_orders_by_day true s N).map Prod.fst) ∧
    (N ≤ s.orders.length →
      (∀ x ∈ recentWindow s N, o.order_date < x.order_date) →
      get_orders_by_day true { s with orders := s.orders ++ [o] } N =
        get_orders_by_day true s N ∧
      revenue_by_day_query { s with orders := s.orders ++ [o] } N =
        revenue_by_day_query s N) ∧
    ((∀ x ∈ s.orders, x.order_date < o.order_date) → 1 ≤ N →
      dayOf o.order_date ∈
        ((get_orders_by_day true { s with orders := s.orders ++ [o] } N).map
          Prod.fst) ∧
      dayOf o.order_date ∈
        ((revenue_by_day_query { s with orders := s.orders ++ [o] } N).map
          Prod.fst)) := by
  refine ⟨?_, ?_, ?_, ?_⟩
  · intro conn s2 n
    cases conn <;> rfl
  · have h : get_orders_by_day true s N = ordersByDayRows (recentWindow s N) :=
      by simp [get_orders_by_day]
    rw [h, ordersByDayRows_fst]
    exact chain_daysAsc _
  · intro hlen hold
    have hw := recentWindow_append s o N hlen hold
    constructor
    · simp only [get_orders_by_day, Bool.not_true, Bool.false_eq_true,
        if_false]
      rw [hw]
    · simp only [revenue_by_day_query]
      rw [hw]
  · intro hall hN
    have hcons : sortDescBy (fun r => r.order_date) (s.orders ++ [o]) =
        o :: sortDescBy (fun r => r.order_date) s.orders := by
      rw [sortDescBy_append_one]
      exact insDescBy_eq_cons _ _ _
        (fun y hy => hall y ((mem_sortDescBy _ _ _).1 hy))
    have hwin : o ∈ recentWindow { s with orders := s.orders ++ [o] } N := by
      unfold recentWindow
      show o ∈ (sortDescBy (fun r => r.order_date) (s.orders ++ [o])).take N
      rw [hcons]
      cases N with
      | zero => omega
      | succ k => simp [List.take_succ_cons]
    constructor
    · have h : get_orders_by_day true { s with orders := s.orders ++ [o] } N =
          ordersByDayRows
            (recentWindow { s with orders := s.orders ++ [o] } N) := by
        simp [get_orders_by_day]
      rw [h, ordersByDayRows_fst, mem_daysAsc]
      exact List.mem_map.2 ⟨o, hwin, rfl⟩
    · rw [show revenue_by_day_query { s with orders := s.orders ++ [o] } N =
          revenueByDayRows
            (recentWindow { s with orders := s.orders ++ [o] } N) from rfl]
      rw [revenueByDayRows_fst, mem_daysAsc]
      exact List.mem_map.2 ⟨o, hwin, rfl⟩

/-- A most-recent order used in the C4 witness, dated day 20. -/
def newerOrder : OrderRow :=
  { order_id := 2, customer_id := 1, payment_method_id := 1, channel_id := 1,
    total_amount := 30, shipping_address := "S", order_date := 86400 * 20,
    order_status := "Pending", ship_date := none }

/-- C4 witness: `get_revenue_by_day` returns `[]` on a connected call
with data present, and a newly added most-recent order's day appears in
`get_orders_by_day`. -/
theorem day_aggregation_window_and_revenue_bug_witness :
    get_revenue_by_day true ordersDB 200 = [] ∧
    dayOf newerOrder.order_date ∈
      ((get_orders_by_day true
          { ordersDB with orders := ordersDB.orders ++ [newerOrder] } 200).map
        Prod.fst) := by
  obtain ⟨h1, h2, h3, h4⟩ :=
    day_aggregation_window_and_revenue_bug ordersDB 200 newerOrder
  refine ⟨h1 true ordersDB 200, ?_⟩
  refine (h4 ?_ (by omega)).1
  intro x hx
  have hx' : x = sampleOrder := by
    simpa [ordersDB] using hx
  subst hx'
  decide

end ECom
